import Mathlib

/-!
Verification development for the visualization helper module
`teachopencadd/talktorials/T018_automated_cadd_pipeline/utils/helpers/NGLView.py`.

The module is notebook glue code: it loads molecular structures into an
NGL viewer widget, decorates them with representations, and wires an
ipywidgets `Select` list to callbacks that update the 3D view.  We embed
each function's observable behaviour shallowly:

* Python exceptions become an `Except PyError` result;
* the viewer widget's API calls become an explicit operation log (`VOp`)
  or an explicit widget state (`DockWidget`, `InteractionsApp`);
* opening a local file is a parameter `openFile : String → Except PyError Unit`
  standing for the underlying library (so error propagation can be stated
  for every possible file-system behaviour);
* atom coordinates (PLIP `LIGCOO` / `PROTCOO` values) are carried as `Int`
  triples: the source never computes on them, it only passes them through
  to `shape.add_cylinder`, so the carrier type is irrelevant;
* the RGB colors of the static `color_map` are exact rationals.
-/

/-- Python exceptions that the embedded code can raise. -/
inductive PyError where
  | nameError
  | indexError
  | keyError
  | attributeError
  | fileNotFound
  | malformedFile
deriving DecidableEq, Repr

/-- A traitlets change notification delivered to a callback registered with
`selector.observe(...)`: a dict with at least the keys `name`, `new`, `old`.
The selector's values are the integers `1..n` (and the manual triggers use
`0` or `1`), so `new` is a natural number; `old` is `none` for Python's
`None` (the manual trigger passes `old=None`). -/
structure Change where
  name : String
  new : Nat
  old : Option Nat
deriving DecidableEq, Repr

/-- State of the NGL widget built by `docking`: component `0` is the
protein, components `1..n` are the docking poses.  `widgetId` is the
identity of the widget instance (creation picks it, in-place mutation
keeps it).  `centerLog` records every `component.center(duration)` call
and `jsLog` every `_execute_js_code(_RESIDUES_AROUND.format(index, radius))`
call. -/
structure DockWidget where
  widgetId : Nat
  compVisible : List Bool
  centerLog : List (Nat × Nat)
  jsLog : List (Nat × Nat)
deriving DecidableEq, Repr

/-- `viewer.hide(idxs)`: hide every component whose index is in `idxs`
(auxiliary recursion carrying the index of the list head). -/
def hideAux (idxs : List Nat) (i : Nat) : List Bool → List Bool
  | [] => []
  | b :: bs => (if i ∈ idxs then false else b) :: hideAux idxs (i + 1) bs

/-- `viewer.hide(idxs)` on the visibility list of the widget. -/
def hideComponents (vis : List Bool) (idxs : List Nat) : List Bool :=
  hideAux idxs 0 vis

/-- The event handler `_on_selection_change` defined inside `docking`
(NGLView.py lines 171-181).  `nPoses = len(list_docking_poses_filepaths)`.
When the notification is an effective value change it hides components
`1..nPoses` (`list(range(1, len(list_docking_poses_filepaths) + 1))`),
looks up `component_{change["new"]}` (an `AttributeError` if that
component does not exist), shows it, centers it with duration 500 and runs
the residues-around script with that index and radius 6; otherwise it does
nothing. -/
def docking_on_selection_change (nPoses : Nat) (c : Change) (w : DockWidget) :
    Except PyError DockWidget :=
  if c.name = "value" ∧ some c.new ≠ c.old then
    let w1 : DockWidget :=
      { w with compVisible := hideComponents w.compVisible (List.range' 1 nPoses) }
    if c.new < w1.compVisible.length then
      let w2 : DockWidget := { w1 with compVisible := w1.compVisible.set c.new true }
      let w3 : DockWidget := { w2 with centerLog := w2.centerLog ++ [(c.new, 500)] }
      Except.ok { w3 with jsLog := w3.jsLog ++ [(c.new, 6)] }
    else
      Except.error PyError.attributeError
  else
    Except.ok w

theorem hideAux_length (idxs : List Nat) (i : Nat) (vis : List Bool) :
    (hideAux idxs i vis).length = vis.length := by
  induction vis generalizing i with
  | nil => rfl
  | cons b bs ih => simp [hideAux, ih]

theorem hideAux_getElem? (idxs : List Nat) (i j : Nat) (vis : List Bool) :
    (hideAux idxs i vis)[j]? =
      vis[j]?.map (fun b => if i + j ∈ idxs then false else b) := by
  induction vis generalizing i j with
  | nil => simp [hideAux]
  | cons b bs ih =>
    cases j with
    | zero => simp [hideAux]
    | succ j =>
      simp only [hideAux, List.getElem?_cons_succ, ih (i + 1) j]
      have h : i + 1 + j = i + (j + 1) := by omega
      rw [h]

theorem hideComponents_length (vis : List Bool) (idxs : List Nat) :
    (hideComponents vis idxs).length = vis.length :=
  hideAux_length idxs 0 vis

theorem hideComponents_getElem? (vis : List Bool) (idxs : List Nat) (j : Nat) :
    (hideComponents vis idxs)[j]? =
      vis[j]?.map (fun b => if j ∈ idxs then false else b) := by
  have h := hideAux_getElem? idxs 0 j vis
  simpa [hideComponents] using h

/-- Claim C3: when the docking view's callback receives a notification whose
name is `"value"` and whose new value differs from the old one, and the new
value is a valid pose index `1..nPoses`, it hides all ligand components
`1..nPoses`, then shows and centers exactly the selected one: afterwards a
ligand component `j` is visible exactly when `j` is the selected index, the
selected component is the one centered, and the residues-around script runs
for it. -/
theorem docking_selection_shows_only_selected (nPoses : Nat) (c : Change)
    (w : DockWidget) (hlen : w.compVisible.length = nPoses + 1)
    (hname : c.name = "value") (hdiff : some c.new ≠ c.old)
    (hlo : 1 ≤ c.new) (hhi : c.new ≤ nPoses) :
    ∃ w', docking_on_selection_change nPoses c w = Except.ok w' ∧
      (∀ j, 1 ≤ j → j ≤ nPoses → w'.compVisible[j]? = some (decide (j = c.new))) ∧
      w'.centerLog = w.centerLog ++ [(c.new, 500)] ∧
      w'.jsLog = w.jsLog ++ [(c.new, 6)] := by
  have hcond : c.name = "value" ∧ some c.new ≠ c.old := ⟨hname, hdiff⟩
  have hhlen : (hideComponents w.compVisible (List.range' 1 nPoses)).length = nPoses + 1 := by
    rw [hideComponents_length, hlen]
  have hlt : c.new < (hideComponents w.compVisible (List.range' 1 nPoses)).length := by
    omega
  unfold docking_on_selection_change
  rw [if_pos hcond, if_pos hlt]
  refine ⟨_, rfl, ?_, rfl, rfl⟩
  intro j hj1 hj2
  by_cases hje : j = c.new
  · subst hje
    simp [List.getElem?_set, hlt]
  · have hne : ¬ c.new = j := fun h => hje h.symm
    have hset : ((hideComponents w.compVisible (List.range' 1 nPoses)).set c.new true)[j]?
        = (hideComponents w.compVisible (List.range' 1 nPoses))[j]? := by
      simp [List.getElem?_set, hne]
    rw [hset, hideComponents_getElem?]
    have hmem : j ∈ List.range' 1 nPoses := List.mem_range'_1.mpr ⟨hj1, by omega⟩
    cases hg : w.compVisible[j]? with
    | none =>
      rw [List.getElem?_eq_none_iff] at hg
      omega
    | some b =>
      simp [hmem, hje]

/-- Witness for C3 at a concrete input: protein plus three poses, selection
changes from pose 1 to pose 2. -/
theorem docking_selection_shows_only_selected_witness :
    (DockWidget.mk 5 [true, true, true, true] [] []).compVisible.length = 3 + 1 ∧
    (Change.mk "value" 2 (some 1)).name = "value" ∧
    some (Change.mk "value" 2 (some 1)).new ≠ (Change.mk "value" 2 (some 1)).old ∧
    (∃ w', docking_on_selection_change 3 (Change.mk "value" 2 (some 1))
        (DockWidget.mk 5 [true, true, true, true] [] []) = Except.ok w' ∧
      (∀ j, 1 ≤ j → j ≤ 3 →
        w'.compVisible[j]? = some (decide (j = (Change.mk "value" 2 (some 1)).new))) ∧
      w'.centerLog = (DockWidget.mk 5 [true, true, true, true] [] []).centerLog ++ [(2, 500)] ∧
      w'.jsLog = (DockWidget.mk 5 [true, true, true, true] [] []).jsLog ++ [(2, 6)]) :=
  ⟨by decide, rfl, by decide,
    docking_selection_shows_only_selected 3 (Change.mk "value" 2 (some 1))
      (DockWidget.mk 5 [true, true, true, true] [] [])
      (by decide) rfl (by decide) (by decide) (by decide)⟩

/-- Claim C8: a notification whose name is not `"value"`, or whose new value
equals the old one, makes the docking callback a no-op: the widget state
(component visibilities, center log, script log) is returned unchanged. -/
theorem docking_selection_noop (nPoses : Nat) (c : Change) (w : DockWidget)
    (h : c.name ≠ "value" ∨ c.old = some c.new) :
    docking_on_selection_change nPoses c w = Except.ok w := by
  unfold docking_on_selection_change
  rw [if_neg]
  rintro ⟨h1, h2⟩
  rcases h with h | h
  · exact h h1
  · exact h2 h.symm

/-- Witness for C8 at concrete inputs: a non-value notification and a
notification whose new value equals the old one both leave the widget
untouched. -/
theorem docking_selection_noop_witness :
    ((Change.mk "options" 2 (some 1)).name ≠ "value" ∨
        (Change.mk "options" 2 (some 1)).old = some (Change.mk "options" 2 (some 1)).new) ∧
    docking_on_selection_change 3 (Change.mk "options" 2 (some 1))
      (DockWidget.mk 5 [true, false, true, false] [] []) =
      Except.ok (DockWidget.mk 5 [true, false, true, false] [] []) ∧
    docking_on_selection_change 3 (Change.mk "value" 1 (some 1))
      (DockWidget.mk 5 [true, false, true, false] [] []) =
      Except.ok (DockWidget.mk 5 [true, false, true, false] [] []) :=
  ⟨Or.inl (by decide),
    docking_selection_noop 3 (Change.mk "options" 2 (some 1))
      (DockWidget.mk 5 [true, false, true, false] [] []) (Or.inl (by decide)),
    docking_selection_noop 3 (Change.mk "value" 1 (some 1))
      (DockWidget.mk 5 [true, false, true, false] [] []) (Or.inr (by decide))⟩

/-- Calls made on an NGL viewer object, recorded in order. -/
inductive VOp where
  | fetchPdbId (pdb_code : String)
  | showFile (path ext : String)
  | addRepresentation (rtype sele : String)
  | center (sele : String)
  | centerAll
  | addComponent (path ext : String)
  | renderImage
  | displayImage
  | downloadImage (filename : String)
deriving DecidableEq, Repr

/-- The names defined at module level in NGLView.py: the imports
(`time`, `nv`, `AppLayout`, `Layout`, `Select`, `Button`, `mpl`, `plt`,
`colors`, `np`, `pd`) and the four function definitions.  Python name
resolution inside a function body falls back to these module globals and
then to the builtins; `NGLView` is neither a module global nor a builtin. -/
def module_globals : List String :=
  ["time", "nv", "AppLayout", "Layout", "Select", "Button", "mpl", "plt",
   "colors", "np", "pd", "protein", "binding_site", "docking", "interactions"]

/-- Resolving a global name in the module: a `NameError` when the name is
not defined. -/
def resolveName (n : String) : Except PyError Unit :=
  if n ∈ module_globals then Except.ok () else Except.error PyError.nameError

/-- The function `protein` (NGLView.py lines 25-59).  `openFile` stands for
the underlying file-system behaviour of `open(input_value)`.  The result is
the list of local files opened together with the ordered viewer API calls:
for `input_type == "pdb_code"` the structure is fetched by identifier
(`nv.show_pdbid`), otherwise the local file is opened and shown with
`ext=input_type` plus a cartoon representation; in both cases a
ball-and-stick representation for `"hetero and not water"` is added and the
view is centered on `"protein"`; a non-`None` `output_image_filename` adds
the image render/display/download calls. -/
def protein (openFile : String → Except PyError Unit)
    (input_type input_value : String) (output_image_filename : Option String) :
    Except PyError (List String × List VOp) := do
  let (opened, ops) ←
    if input_type = "pdb_code" then
      pure (([] : List String), [VOp.fetchPdbId input_value])
    else do
      openFile input_value
      pure ([input_value],
        [VOp.showFile input_value input_type, VOp.addRepresentation "cartoon" "protein"])
  let ops := ops ++ [VOp.addRepresentation "ball+stick" "hetero and not water",
                     VOp.center "protein"]
  match output_image_filename with
  | none => Except.ok (opened, ops)
  | some filename =>
      Except.ok (opened, ops ++ [VOp.renderImage, VOp.displayImage, VOp.downloadImage filename])

/-- The function `binding_site` (NGLView.py lines 62-84).  Its first
statement evaluates `NGLView.protein(...)`, which begins by resolving the
global name `NGLView`; were that to succeed, the viewer from `protein`
would get the CCP4 file added as a component (opened in `"rb"` mode) and
the view recentered. -/
def binding_site (openFile : String → Except PyError Unit)
    (protein_input_type protein_input_value ccp4_filepath : String) :
    Except PyError (List String × List VOp) := do
  resolveName "NGLView"
  let (opened, ops) ← protein openFile protein_input_type protein_input_value none
  openFile ccp4_filepath
  Except.ok (opened ++ [ccp4_filepath], ops ++ [VOp.addComponent ccp4_filepath "ccp4", VOp.centerAll])

/-- Claim C5: `binding_site` raises a `NameError` for every input and every
file-system behaviour, before opening the CCP4 file (or any file): its first
statement references the undefined global `NGLView`.  The result does not
depend on `openFile` at all, so no file is consulted. -/
theorem binding_site_always_nameError
    (openFile : String → Except PyError Unit)
    (protein_input_type protein_input_value ccp4_filepath : String) :
    binding_site openFile protein_input_type protein_input_value ccp4_filepath =
      Except.error PyError.nameError := rfl

/-- Claim C6: `protein` dispatches on `input_type`.  With `"pdb_code"` the
structure is fetched by identifier and no local file is opened (for every
file-system behaviour); with any other `input_type` the local file at
`input_value` is opened and shown with `input_type` as the format extension.
In both cases the returned viewer got a ball-and-stick representation for
`"hetero and not water"` and was centered on `"protein"`. -/
theorem protein_dispatch (openFile : String → Except PyError Unit)
    (input_type input_value pdb_code : String)
    (hty : input_type ≠ "pdb_code") (hopen : openFile input_value = Except.ok ()) :
    protein openFile "pdb_code" pdb_code none =
      Except.ok ([], [VOp.fetchPdbId pdb_code,
        VOp.addRepresentation "ball+stick" "hetero and not water",
        VOp.center "protein"]) ∧
    protein openFile input_type input_value none =
      Except.ok ([input_value], [VOp.showFile input_value input_type,
        VOp.addRepresentation "cartoon" "protein",
        VOp.addRepresentation "ball+stick" "hetero and not water",
        VOp.center "protein"]) := by
  constructor
  · rfl
  · simp [protein, hty, hopen, bind, Except.bind, pure, Except.pure]

/-- Witness for C6 at a concrete input: file-system where every open
succeeds, a `"pdb"` file at `"protein.pdb"` and the PDB code `"3POZ"`. -/
theorem protein_dispatch_witness :
    ("pdb" : String) ≠ "pdb_code" ∧
    (fun (_ : String) => (Except.ok () : Except PyError Unit)) "protein.pdb" = Except.ok () ∧
    (protein (fun _ => Except.ok ()) "pdb_code" "3POZ" none =
      Except.ok ([], [VOp.fetchPdbId "3POZ",
        VOp.addRepresentation "ball+stick" "hetero and not water",
        VOp.center "protein"]) ∧
    protein (fun _ => Except.ok ()) "pdb" "protein.pdb" none =
      Except.ok (["protein.pdb"], [VOp.showFile "protein.pdb" "pdb",
        VOp.addRepresentation "cartoon" "protein",
        VOp.addRepresentation "ball+stick" "hetero and not water",
        VOp.center "protein"])) :=
  ⟨by decide, rfl,
    protein_dispatch (fun _ => Except.ok ()) "pdb" "protein.pdb" "3POZ" (by decide) rfl⟩

/-- Claim C7: when opening the input file fails with any error `e`,
`protein` propagates exactly `e` to the caller: no retry, no recovery, no
substitution of a default result, and no translation into a different
error. -/
theorem protein_propagates_open_error (openFile : String → Except PyError Unit)
    (input_type input_value : String) (output_image_filename : Option String)
    (e : PyError) (hty : input_type ≠ "pdb_code")
    (hopen : openFile input_value = Except.error e) :
    protein openFile input_type input_value output_image_filename = Except.error e := by
  simp [protein, hty, hopen, bind, Except.bind, pure, Except.pure]

/-- Witness for C7 at a concrete input: a file system on which every open
fails with `fileNotFound` makes `protein` return exactly that error. -/
theorem protein_propagates_open_error_witness :
    ("pdb" : String) ≠ "pdb_code" ∧
    (fun (_ : String) => (Except.error PyError.fileNotFound : Except PyError Unit))
        "missing.pdb" = Except.error PyError.fileNotFound ∧
    protein (fun _ => Except.error PyError.fileNotFound) "pdb" "missing.pdb" none =
      Except.error PyError.fileNotFound :=
  ⟨by decide, rfl,
    protein_propagates_open_error (fun _ => Except.error PyError.fileNotFound)
      "pdb" "missing.pdb" none PyError.fileNotFound (by decide) rfl⟩

/-- An RGB color as an exact rational triple. -/
abbrev RGB : Type := ℚ × ℚ × ℚ

/-- The static `color_map` dict of `interactions` (NGLView.py lines
200-209), in insertion order, with the decimal literals as exact
rationals. -/
def color_map : List (String × RGB) :=
  [("hydrophobic", (90/100, 10/100, 29/100)),
   ("hbond", (26/100, 83/100, 96/100)),
   ("waterbridge", (1, 88/100, 10/100)),
   ("saltbridge", (67/100, 1, 76/100)),
   ("pistacking", (75/100, 94/100, 27/100)),
   ("pication", (27/100, 60/100, 56/100)),
   ("halogen", (94/100, 20/100, 90/100)),
   ("metal", (90/100, 75/100, 1))]

/-- One row of a PLIP interaction table: the fields the callback reads
(`LIGCOO`, `PROTCOO`, `RESNR`).  The coordinates are opaque to the code, so
`Int` triples stand in for the float triples. -/
structure PlipRecord where
  ligcoo : Int × Int × Int
  protcoo : Int × Int × Int
  resnr : Nat
deriving DecidableEq, Repr

/-- A PLIP interaction table as stored in the per-pose dict: a Python list
whose element 0 is the header row (the column names) and whose remaining
elements are the data records.  We keep the raw list shape and mark the
header slot with the record it would misparse to; only `l.length` and the
elements after the header are ever consumed when drawing. -/
abbrev PlipList : Type := List PlipRecord

/-- A per-pose PLIP dict: interaction-type name to interaction table, in
insertion order. -/
abbrev PlipDict : Type := List (String × PlipList)

/-- One `viewer.shape.add_cylinder(LIGCOO, PROTCOO, color, [0.1], name)`
call. -/
structure Cylinder where
  startPos : Int × Int × Int
  endPos : Int × Int × Int
  color : RGB
  radius : ℚ
  name : String
deriving DecidableEq, Repr

/-- The per-type body of the interaction loop (NGLView.py lines 284-298),
with the color already looked up: a list of length 1 (header only) is
skipped (`continue`); an empty list raises `IndexError` at
`interaction_list[0]`; otherwise one cylinder is drawn per record after the
header, and each record's `RESNR` is appended to the interacting-residue
list. -/
def drawInteractionList (color : RGB) (iname : String) (l : PlipList) :
    Except PyError (List Cylinder × List Nat) :=
  if l.length = 1 then Except.ok ([], [])
  else
    match l with
    | [] => Except.error PyError.indexError
    | _header :: records =>
        Except.ok
          (records.map (fun r => Cylinder.mk r.ligcoo r.protcoo color (1/10) iname),
           records.map (fun r => r.resnr))

/-- The interaction loop of `_on_selection_change` in `interactions`
(NGLView.py lines 282-298): for each dict entry the color is looked up
first (`color = color_map[interaction_type]`, a `KeyError` for an unknown
type), then the cylinders and residue numbers of that entry are produced. -/
def drawInteractions (cmap : List (String × RGB)) : PlipDict →
    Except PyError (List Cylinder × List Nat)
  | [] => Except.ok ([], [])
  | (ty, l) :: rest =>
      match cmap.lookup ty with
      | none => Except.error PyError.keyError
      | some color => do
          let (cyls, res) ← drawInteractionList color ty l
          let (cyls2, res2) ← drawInteractions cmap rest
          Except.ok (cyls ++ cyls2, res ++ res2)

/-- The residue selection string `res_sele` (NGLView.py line 300). -/
def mkResSele (residues : List Nat) : String :=
  String.intercalate " or " (residues.map (fun r => "(" ++ toString r ++ " and not _H)"))

/-- The residue selection string `res_sele_nc` (NGLView.py lines 301-303). -/
def mkResSeleNC (residues : List Nat) : String :=
  String.intercalate " or "
    (residues.map (fun r => "(" ++ toString r ++ " and ((_O) or (_N) or (_S)))"))

/-- `Select(options=[(label, i) for (i, label) in enumerate(labels, 1)], ...)`:
the selection list pairs the i-th label (1-based) with the value `i`.  The
same expression builds the selector in `docking` (line 159) and in
`interactions` (line 216). -/
def selector_options (list_docking_poses_labels : List String) : List (String × Nat) :=
  list_docking_poses_labels.enum.map (fun p => (p.2, p.1 + 1))

/-- The `rows=...` argument of the `Select` built in `docking` (NGLView.py
line 161): `len(list_docking_poses_filepaths) if len(...) <= 52 else 52`. -/
def docking_selector_rows (list_docking_poses_filepaths : List String) : Nat :=
  if list_docking_poses_filepaths.length ≤ 52 then list_docking_poses_filepaths.length else 52

/-- The `rows=...` argument of the `Select` built in `interactions`
(NGLView.py line 218), the same expression as in `docking`. -/
def interactions_selector_rows (list_docking_poses_filepaths : List String) : Nat :=
  if list_docking_poses_filepaths.length ≤ 52 then list_docking_poses_filepaths.length else 52

/-- The arguments of `interactions` that its callback closes over. -/
structure InteractionsArgs where
  list_docking_poses_filepaths : List String
  list_docking_poses_affinities : List String
  list_docking_poses_plip_dicts : List PlipDict
deriving Repr

/-- The widget state of the `interactions` view's `AppLayout`: the identity
of the widget currently sitting in `app.center` (`none` before the first
effective change), the identities of the widgets that have been closed, and
the next fresh widget identity. -/
structure InteractionsApp where
  center : Option Nat
  closedWidgets : List Nat
  nextId : Nat
deriving DecidableEq, Repr

/-- What the freshly created NGL widget of one effective selection change
displays: the loaded pose file, the affinity label put on the ligand, the
cylinders drawn, the interacting residues collected, and the two
ball-and-stick selection strings added to the protein component. -/
structure InteractionsRender where
  ligandFile : String
  affinityLabel : String
  cylinders : List Cylinder
  residues : List Nat
  resSele : String
  resSeleNC : String
deriving DecidableEq, Repr

/-- Python list indexing `l[i]` for a non-negative index: `IndexError` when
out of range. -/
def listIndex {α : Type} (l : List α) (i : Nat) : Except PyError α :=
  match l[i]? with
  | some x => Except.ok x
  | none => Except.error PyError.indexError

/-- The event handler `_on_selection_change` defined inside `interactions`
(NGLView.py lines 248-310).  On an effective value change it closes the
current center widget (if any), installs a freshly created NGL widget as
`app.center`, loads `list_docking_poses_filepaths[change["new"]]` as the
ligand, labels it with `list_docking_poses_affinities[change["new"]]`
(already mapped to `str(x) + " kcal/mol"` at line 242), draws the
interaction overlays from `list_docking_poses_plip_dicts[change["new"]]`
and highlights the interacting residues; otherwise it does nothing.  Note
the indexing is 0-based while the selector supplies the 1-based values
created by `enumerate(..., 1)`. -/
def interactions_on_selection_change (args : InteractionsArgs) (c : Change)
    (s : InteractionsApp) :
    Except PyError (InteractionsApp × Option InteractionsRender) :=
  if c.name = "value" ∧ some c.new ≠ c.old then
    let closed : List Nat :=
      match s.center with
      | some w => s.closedWidgets ++ [w]
      | none => s.closedWidgets
    let s1 : InteractionsApp := InteractionsApp.mk (some s.nextId) closed (s.nextId + 1)
    do
      let file ← listIndex args.list_docking_poses_filepaths c.new
      let aff ← listIndex
        (args.list_docking_poses_affinities.map (fun x => x ++ " kcal/mol")) c.new
      let dict ← listIndex args.list_docking_poses_plip_dicts c.new
      let (cyls, res) ← drawInteractions color_map dict
      Except.ok (s1,
        some (InteractionsRender.mk file aff cyls res (mkResSele res) (mkResSeleNC res)))
  else
    Except.ok (s, none)

/-- A concrete interactions view with two docking poses, used to exercise
the selector/callback indexing. -/
def twoPoseArgs : InteractionsArgs :=
  InteractionsArgs.mk ["pose1.pdb", "pose2.pdb"] ["-8.0", "-7.5"] [[], []]

/-- The app state before any effective selection change. -/
def freshApp : InteractionsApp := InteractionsApp.mk none [] 0

/-- Claim C1, refuted on the code: with two poses, the selector pairs the
first label with the value `1` and the second with `2`, but the callback
indexes the 0-based Python lists with that 1-based value: selecting the
first label loads `pose2.pdb` with the second pose's affinity label, and
selecting the second (last) label raises an `IndexError`.  The i-th label
therefore selects the (i+1)-th pose file and affinity, and the last label
selects nothing. -/
theorem interactions_selection_off_by_one :
    selector_options ["CID 221 - mode 1", "CID 221 - mode 2"] =
      [("CID 221 - mode 1", 1), ("CID 221 - mode 2", 2)] ∧
    interactions_on_selection_change twoPoseArgs (Change.mk "value" 1 none) freshApp =
      Except.ok (InteractionsApp.mk (some 0) [] 1,
        some (InteractionsRender.mk "pose2.pdb" "-7.5 kcal/mol" [] [] "" "")) ∧
    interactions_on_selection_change twoPoseArgs (Change.mk "value" 2 none) freshApp =
      Except.error PyError.indexError := by
  refine ⟨rfl, ?_, ?_⟩ <;> rfl

theorem drawInteractionList_ok (color : RGB) (iname : String) (l : PlipList)
    (h : l ≠ []) :
    drawInteractionList color iname l =
      Except.ok
        ((l.drop 1).map (fun r => Cylinder.mk r.ligcoo r.protcoo color (1/10) iname),
         (l.drop 1).map (fun r => r.resnr)) := by
  match l with
  | [] => exact absurd rfl h
  | x :: t =>
    cases t with
    | nil => rfl
    | cons y t =>
      rw [drawInteractionList, if_neg (by simp)]
      rfl

theorem drawInteractions_ok (dict : PlipDict)
    (h : ∀ p ∈ dict, (color_map.lookup p.1).isSome ∧ p.2 ≠ []) :
    drawInteractions color_map dict =
      Except.ok
        (dict.flatMap (fun p => (p.2.drop 1).map
          (fun r => Cylinder.mk r.ligcoo r.protcoo
            ((color_map.lookup p.1).getD (0, 0, 0)) (1/10) p.1)),
         dict.flatMap (fun p => (p.2.drop 1).map (fun r => r.resnr))) := by
  induction dict with
  | nil => rfl
  | cons p rest ih =>
    obtain ⟨hsome, hne⟩ := h p (List.mem_cons_self p rest)
    obtain ⟨color, hc⟩ := Option.isSome_iff_exists.mp hsome
    obtain ⟨ty, l⟩ := p
    rw [drawInteractions]
    simp only at hc hne
    simp [hc, drawInteractionList_ok color ty l hne,
      ih (fun q hq => h q (List.mem_cons_of_mem _ hq)), bind, Except.bind]

/-- Claim C2: on an effective selection of a valid pose, the interactions
callback iterates the pose's interaction dict and draws exactly one
cylinder per record (the rows after the header row of each table), each
colored with the RGB triple that the static `color_map` assigns to that
record's interaction type, and afterwards highlights exactly the residues
named by those records on the protein component (the two ball-and-stick
selection strings are built from that residue list). -/
theorem interactions_one_cylinder_per_record (args : InteractionsArgs) (c : Change)
    (s : InteractionsApp) (dict : PlipDict)
    (hname : c.name = "value") (hdiff : some c.new ≠ c.old)
    (hfp : c.new < args.list_docking_poses_filepaths.length)
    (haff : c.new < args.list_docking_poses_affinities.length)
    (hdict : args.list_docking_poses_plip_dicts[c.new]? = some dict)
    (hw : ∀ p ∈ dict, (color_map.lookup p.1).isSome ∧ p.2 ≠ []) :
    ∃ s' r, interactions_on_selection_change args c s = Except.ok (s', some r) ∧
      r.cylinders = dict.flatMap (fun p => (p.2.drop 1).map
        (fun q => Cylinder.mk q.ligcoo q.protcoo
          ((color_map.lookup p.1).getD (0, 0, 0)) (1/10) p.1)) ∧
      r.residues = dict.flatMap (fun p => (p.2.drop 1).map (fun q => q.resnr)) ∧
      r.resSele = mkResSele r.residues ∧
      r.resSeleNC = mkResSeleNC r.residues := by
  have hfile : ∃ x, args.list_docking_poses_filepaths[c.new]? = some x :=
    ⟨_, List.getElem?_eq_getElem hfp⟩
  obtain ⟨file, hfile⟩ := hfile
  have haff2 : c.new < (args.list_docking_poses_affinities.map
      (fun x => x ++ " kcal/mol")).length := by
    rw [List.length_map]
    exact haff
  have haffg : ∃ x, (args.list_docking_poses_affinities.map
      (fun x => x ++ " kcal/mol"))[c.new]? = some x :=
    ⟨_, List.getElem?_eq_getElem haff2⟩
  obtain ⟨aff, haffg⟩ := haffg
  refine ⟨InteractionsApp.mk (some s.nextId)
      (match s.center with
        | some w => s.closedWidgets ++ [w]
        | none => s.closedWidgets) (s.nextId + 1),
    InteractionsRender.mk file aff
      (dict.flatMap (fun p => (p.2.drop 1).map
        (fun q => Cylinder.mk q.ligcoo q.protcoo
          ((color_map.lookup p.1).getD (0, 0, 0)) (1/10) p.1)))
      (dict.flatMap (fun p => (p.2.drop 1).map (fun q => q.resnr)))
      (mkResSele (dict.flatMap (fun p => (p.2.drop 1).map (fun q => q.resnr))))
      (mkResSeleNC (dict.flatMap (fun p => (p.2.drop 1).map (fun q => q.resnr)))),
    ?_, rfl, rfl, rfl, rfl⟩
  rw [interactions_on_selection_change, if_pos ⟨hname, hdiff⟩]
  simp only [listIndex, hfile, haffg, hdict, drawInteractions_ok dict hw, bind, Except.bind]

/-- A concrete one-pose PLIP dict: one `hbond` table with a header row and
one data record. -/
def onePoseDict : PlipDict :=
  [("hbond", [PlipRecord.mk (0, 0, 0) (0, 0, 0) 0, PlipRecord.mk (1, 2, 3) (4, 5, 6) 42])]

/-- A concrete interactions view with one docking pose and the dict
`onePoseDict`. -/
def onePoseArgs : InteractionsArgs :=
  InteractionsArgs.mk ["pose1.pdb"] ["-8.0"] [onePoseDict]

/-- Witness for C2 at a concrete input: one pose, one `hbond` record; the
callback draws exactly one cylinder, colored with the `hbond` color, and
highlights residue 42. -/
theorem interactions_one_cylinder_per_record_witness :
    (Change.mk "value" 0 none).name = "value" ∧
    some (Change.mk "value" 0 none).new ≠ (Change.mk "value" 0 none).old ∧
    (Change.mk "value" 0 none).new < onePoseArgs.list_docking_poses_filepaths.length ∧
    (Change.mk "value" 0 none).new < onePoseArgs.list_docking_poses_affinities.length ∧
    onePoseArgs.list_docking_poses_plip_dicts[(Change.mk "value" 0 none).new]? =
      some onePoseDict ∧
    (∀ p ∈ onePoseDict, (color_map.lookup p.1).isSome ∧ p.2 ≠ []) ∧
    (∃ s' r, interactions_on_selection_change onePoseArgs (Change.mk "value" 0 none) freshApp =
        Except.ok (s', some r) ∧
      r.cylinders = onePoseDict.flatMap (fun p => (p.2.drop 1).map
        (fun q => Cylinder.mk q.ligcoo q.protcoo
          ((color_map.lookup p.1).getD (0, 0, 0)) (1/10) p.1)) ∧
      r.residues = onePoseDict.flatMap (fun p => (p.2.drop 1).map (fun q => q.resnr)) ∧
      r.resSele = mkResSele r.residues ∧
      r.resSeleNC = mkResSeleNC r.residues) :=
  ⟨rfl, by decide, by decide, by decide, rfl, by decide,
    interactions_one_cylinder_per_record onePoseArgs (Change.mk "value" 0 none)
      freshApp onePoseDict rfl (by decide) (by decide) (by decide) rfl (by decide)⟩

/-- The three components of an RGB color all lie in the closed unit
interval. -/
def rgbInUnit (c : RGB) : Bool :=
  decide (0 ≤ c.1) && decide (c.1 ≤ 1) && decide (0 ≤ c.2.1) && decide (c.2.1 ≤ 1) &&
    decide (0 ≤ c.2.2) && decide (c.2.2 ≤ 1)

theorem drawInteractions_unknown_key (dict : PlipDict) (ty : String) (l : PlipList)
    (hne : ∀ p ∈ dict, p.2 ≠ []) (hmem : (ty, l) ∈ dict)
    (hnone : color_map.lookup ty = none) :
    drawInteractions color_map dict = Except.error PyError.keyError := by
  induction dict with
  | nil => cases hmem
  | cons q rest ih =>
    obtain ⟨tq, lq⟩ := q
    rw [drawInteractions]
    rcases List.mem_cons.mp hmem with heq | hmemr
    · cases heq
      rw [hnone]
    · cases hlk : color_map.lookup tq with
      | none => rfl
      | some color =>
        have hlq : lq ≠ [] := by
          have h2 := hne (tq, lq) (List.mem_cons_self (tq, lq) rest)
          simpa using h2
        simp only [drawInteractionList_ok color tq lq hlq,
          ih (fun p hp => hne p (List.mem_cons_of_mem _ hp)) hmemr, bind, Except.bind]

/-- Claim C9: if the selected pose's interaction dict contains an entry
whose interaction-type name is not one of the eight fixed `color_map` keys
(and whose table has more than one element, i.e. actual records), the
drawing loop raises a `KeyError` — no cylinder of that type is ever
produced; for the eight fixed names the lookup always succeeds, and every
color in the table is an RGB triple with all components in `[0, 1]`. -/
theorem interactions_unknown_type_keyError (dict : PlipDict) (ty : String)
    (l : PlipList) (hne : ∀ p ∈ dict, p.2 ≠ []) (hmem : (ty, l) ∈ dict)
    (hlen : 1 < l.length) (hnone : color_map.lookup ty = none) :
    drawInteractions color_map dict = Except.error PyError.keyError ∧
    (["hydrophobic", "hbond", "waterbridge", "saltbridge", "pistacking",
      "pication", "halogen", "metal"].all (fun t => (color_map.lookup t).isSome)) = true ∧
    color_map.all (fun p => rgbInUnit p.2) = true :=
  ⟨drawInteractions_unknown_key dict ty l hne hmem hnone, by decide, by
    simp only [color_map, rgbInUnit, List.all_cons, List.all_nil, Bool.and_eq_true,
      decide_eq_true_eq]
    norm_num⟩

/-- A dict holding a well-formed `hbond` table followed by a table under a
name outside the eight fixed ones. -/
def unknownTypeDict : PlipDict :=
  [("hbond", [PlipRecord.mk (0, 0, 0) (0, 0, 0) 0, PlipRecord.mk (1, 2, 3) (4, 5, 6) 42]),
   ("covalent", [PlipRecord.mk (0, 0, 0) (0, 0, 0) 0,
     PlipRecord.mk (7, 8, 9) (1, 1, 1) 17, PlipRecord.mk (2, 2, 2) (3, 3, 3) 19])]

/-- Witness for C9 at a concrete input: the dict `unknownTypeDict`, whose
second entry `"covalent"` has two records and no `color_map` entry. -/
theorem interactions_unknown_type_keyError_witness :
    (∀ p ∈ unknownTypeDict, p.2 ≠ []) ∧
    ("covalent", [PlipRecord.mk (0, 0, 0) (0, 0, 0) 0,
      PlipRecord.mk (7, 8, 9) (1, 1, 1) 17, PlipRecord.mk (2, 2, 2) (3, 3, 3) 19]) ∈
      unknownTypeDict ∧
    1 < ([PlipRecord.mk (0, 0, 0) (0, 0, 0) 0, PlipRecord.mk (7, 8, 9) (1, 1, 1) 17,
      PlipRecord.mk (2, 2, 2) (3, 3, 3) 19] : PlipList).length ∧
    color_map.lookup "covalent" = none ∧
    (drawInteractions color_map unknownTypeDict = Except.error PyError.keyError ∧
    (["hydrophobic", "hbond", "waterbridge", "saltbridge", "pistacking",
      "pication", "halogen", "metal"].all (fun t => (color_map.lookup t).isSome)) = true ∧
    color_map.all (fun p => rgbInUnit p.2) = true) :=
  ⟨by decide, by decide, by decide, by decide,
    interactions_unknown_type_keyError unknownTypeDict "covalent"
      [PlipRecord.mk (0, 0, 0) (0, 0, 0) 0, PlipRecord.mk (7, 8, 9) (1, 1, 1) 17,
        PlipRecord.mk (2, 2, 2) (3, 3, 3) 19]
      (by decide) (by decide) (by decide) (by decide)⟩

/-- A one-pose interactions view used to run the callback on an app whose
center widget already exists. -/
def replaceArgs : InteractionsArgs := InteractionsArgs.mk ["p1.pdb"] ["-8"] [[]]

/-- An app state whose center currently holds the widget with identity 7
and whose next fresh widget identity is 8. -/
def replaceApp : InteractionsApp := InteractionsApp.mk (some 7) [] 8

/-- Claim C4, refuted on the code: the interactions view's callback does
not mutate the current widget in place — on an effective selection change
it closes (discards) the center widget and substitutes a freshly created
widget instance: starting from a center widget with identity 7, the
callback leaves the app centered on a different widget (identity 8) and
widget 7 closed. -/
theorem interactions_widget_replaced_counterexample :
    interactions_on_selection_change replaceArgs (Change.mk "value" 0 none) replaceApp =
      Except.ok (InteractionsApp.mk (some 8) [7] 9,
        some (InteractionsRender.mk "p1.pdb" "-8 kcal/mol" [] [] "" "")) ∧
    (InteractionsApp.mk (some 8) [7] 9).center ≠ replaceApp.center ∧
    7 ∈ (InteractionsApp.mk (some 8) [7] 9).closedWidgets := by
  refine ⟨rfl, by decide, by decide⟩

theorem interactions_ok_app_state (args : InteractionsArgs) (c : Change)
    (s s' : InteractionsApp) (r : Option InteractionsRender)
    (hname : c.name = "value") (hdiff : some c.new ≠ c.old)
    (h : interactions_on_selection_change args c s = Except.ok (s', r)) :
    s' = InteractionsApp.mk (some s.nextId)
      (match s.center with
        | some w => s.closedWidgets ++ [w]
        | none => s.closedWidgets) (s.nextId + 1) := by
  rw [interactions_on_selection_change, if_pos ⟨hname, hdiff⟩] at h
  cases h1 : listIndex args.list_docking_poses_filepaths c.new with
  | error e => rw [h1] at h; simp [bind, Except.bind] at h
  | ok file =>
    rw [h1] at h
    simp only [bind, Except.bind] at h
    cases h2 : listIndex
        (args.list_docking_poses_affinities.map (fun x => x ++ " kcal/mol")) c.new with
    | error e => rw [h2] at h; simp [Except.bind] at h
    | ok aff =>
      rw [h2] at h
      simp only [Except.bind] at h
      cases h3 : listIndex args.list_docking_poses_plip_dicts c.new with
      | error e => rw [h3] at h; simp [Except.bind] at h
      | ok dict =>
        rw [h3] at h
        simp only [Except.bind] at h
        cases h4 : drawInteractions color_map dict with
        | error e => rw [h4] at h; simp [Except.bind] at h
        | ok pr =>
          obtain ⟨cyls, res⟩ := pr
          rw [h4] at h
          simp only [Except.bind, Except.ok.injEq, Prod.mk.injEq] at h
          exact h.1.symm

/-- Claim C4 as amended: in the docking view the callback mutates the one
widget instance in place (every successful run preserves the widget's
identity), but in the interactions view every effective selection change
discards the current center widget — it is closed and added to the closed
list — and substitutes a freshly created widget instance as the new
center. -/
theorem widget_mutation_amended :
    (∀ (nPoses : Nat) (c : Change) (w w' : DockWidget),
      docking_on_selection_change nPoses c w = Except.ok w' →
        w'.widgetId = w.widgetId) ∧
    (∀ (args : InteractionsArgs) (c : Change) (s s' : InteractionsApp)
        (r : Option InteractionsRender),
      c.name = "value" → some c.new ≠ c.old →
      interactions_on_selection_change args c s = Except.ok (s', r) →
        s'.center = some s.nextId ∧
        ∀ wid, s.center = some wid → wid ∈ s'.closedWidgets) := by
  constructor
  · intro nPoses c w w' h
    unfold docking_on_selection_change at h
    by_cases hc : c.name = "value" ∧ some c.new ≠ c.old
    · rw [if_pos hc] at h
      by_cases hlt : c.new < (hideComponents w.compVisible (List.range' 1 nPoses)).length
      · rw [if_pos hlt] at h
        simp only [Except.ok.injEq] at h
        subst h
        rfl
      · rw [if_neg hlt] at h
        exact Except.noConfusion h
    · rw [if_neg hc] at h
      simp only [Except.ok.injEq] at h
      subst h
      rfl
  · intro args c s s' r hname hdiff h
    have hs := interactions_ok_app_state args c s s' r hname hdiff h
    subst hs
    refine ⟨rfl, ?_⟩
    intro wid hwid
    rw [hwid]
    simp

/-- Witness for the amended C4 at concrete inputs: a successful docking
update keeps widget identity 5, and the interactions callback on an app
centered on widget 7 installs the fresh widget 8 and closes widget 7. -/
theorem widget_mutation_amended_witness :
    (docking_on_selection_change 1 (Change.mk "value" 1 none)
        (DockWidget.mk 5 [true, true] [] []) =
      Except.ok (DockWidget.mk 5 [true, true] [(1, 500)] [(1, 6)]) ∧
      (DockWidget.mk 5 [true, true] [(1, 500)] [(1, 6)]).widgetId =
        (DockWidget.mk 5 [true, true] [] []).widgetId) ∧
    ((Change.mk "value" 0 none).name = "value" ∧
      some (Change.mk "value" 0 none).new ≠ (Change.mk "value" 0 none).old ∧
      interactions_on_selection_change replaceArgs (Change.mk "value" 0 none) replaceApp =
        Except.ok (InteractionsApp.mk (some 8) [7] 9,
          some (InteractionsRender.mk "p1.pdb" "-8 kcal/mol" [] [] "" "")) ∧
      (InteractionsApp.mk (some 8) [7] 9).center = some replaceApp.nextId ∧
      (∀ wid, replaceApp.center = some wid →
        wid ∈ (InteractionsApp.mk (some 8) [7] 9).closedWidgets)) :=
  ⟨⟨rfl,
    widget_mutation_amended.1 1 (Change.mk "value" 1 none)
      (DockWidget.mk 5 [true, true] [] [])
      (DockWidget.mk 5 [true, true] [(1, 500)] [(1, 6)]) rfl⟩,
   rfl, by decide, rfl,
    (widget_mutation_amended.2 replaceArgs (Change.mk "value" 0 none) replaceApp
      (InteractionsApp.mk (some 8) [7] 9)
      (some (InteractionsRender.mk "p1.pdb" "-8 kcal/mol" [] [] "" ""))
      rfl (by decide) rfl).1,
    (widget_mutation_amended.2 replaceArgs (Change.mk "value" 0 none) replaceApp
      (InteractionsApp.mk (some 8) [7] 9)
      (some (InteractionsRender.mk "p1.pdb" "-8 kcal/mol" [] [] "" ""))
      rfl (by decide) rfl).2⟩

/-- Claim C10: in both the docking and the interactions view the selection
list shows one row per docking-pose file path when there are at most 52 of
them, and exactly 52 rows for any larger number. -/
theorem selector_rows_cap (list_docking_poses_filepaths : List String) :
    (list_docking_poses_filepaths.length ≤ 52 →
      docking_selector_rows list_docking_poses_filepaths =
        list_docking_poses_filepaths.length ∧
      interactions_selector_rows list_docking_poses_filepaths =
        list_docking_poses_filepaths.length) ∧
    (52 < list_docking_poses_filepaths.length →
      docking_selector_rows list_docking_poses_filepaths = 52 ∧
      interactions_selector_rows list_docking_poses_filepaths = 52) := by
  constructor
  · intro h
    exact ⟨by simp [docking_selector_rows, h], by simp [interactions_selector_rows, h]⟩
  · intro h
    have h2 : ¬ list_docking_poses_filepaths.length ≤ 52 := by omega
    exact ⟨by simp [docking_selector_rows, h2], by simp [interactions_selector_rows, h2]⟩

/-- Witness for C10 at concrete inputs: 3 poses give 3 rows, 53 poses give
52 rows, in both views. -/
theorem selector_rows_cap_witness :
    ((List.replicate 3 "pose.pdbqt").length ≤ 52 ∧
      docking_selector_rows (List.replicate 3 "pose.pdbqt") = 3 ∧
      interactions_selector_rows (List.replicate 3 "pose.pdbqt") = 3) ∧
    (52 < (List.replicate 53 "pose.pdbqt").length ∧
      docking_selector_rows (List.replicate 53 "pose.pdbqt") = 52 ∧
      interactions_selector_rows (List.replicate 53 "pose.pdbqt") = 52) := by
  have h3 := (selector_rows_cap (List.replicate 3 "pose.pdbqt")).1 (by decide)
  have h53 := (selector_rows_cap (List.replicate 53 "pose.pdbqt")).2 (by decide)
  exact ⟨⟨by decide, by simpa using h3.1, by simpa using h3.2⟩,
    ⟨by decide, h53.1, h53.2⟩⟩
